import Mathlib

/-!
Verification development for the dd-pager-bridge server (src/main.py).

The Python source is shallowly embedded: Python strings are `List Char`,
parsed JSON values are `JVal`, exceptions are modelled with `Except`,
the SQLite `devices` table is a `List DeviceRec`, and the stateful MQTT
world (global client, `is_connected` polling, `time.sleep`) is an
explicit `MqttWorld` oracle.  Handlers return their HTTP response
together with the list of MQTT messages they published.
-/

/-- Python strings are modelled as lists of characters. -/
abbrev PyStr := List Char

/-- A parsed JSON value, as produced by `request.json()` / `json.loads`.
Numbers are restricted to integers (no claim touches floats). -/
inductive JVal where
  | null : JVal
  | jbool : Bool → JVal
  | num : Int → JVal
  | str : PyStr → JVal
  | arr : List JVal → JVal
  | obj : List (PyStr × JVal) → JVal

/-- The apostrophe character used by Python `repr` for strings. -/
def chrQuote : Char := Char.ofNat 39

/-- Opening curly brace of a Python dict `repr`. -/
def chrLB : Char := Char.ofNat 123

/-- Closing curly brace of a Python dict `repr`. -/
def chrRB : Char := Char.ofNat 125

mutual

/-- Python `repr` of a JSON value (the form `str()` uses for containers). -/
def pyRepr : JVal → PyStr
  | .null => "None".toList
  | .jbool true => "True".toList
  | .jbool false => "False".toList
  | .num n => (toString n).toList
  | .str s => chrQuote :: s ++ [chrQuote]
  | .arr xs => '[' :: pyReprItems xs ++ [']']
  | .obj fs => chrLB :: pyReprPairs fs ++ [chrRB]

/-- Comma-separated `repr`s of list items. -/
def pyReprItems : List JVal → PyStr
  | [] => []
  | [v] => pyRepr v
  | v :: vs => pyRepr v ++ ", ".toList ++ pyReprItems vs

/-- Comma-separated `'key': repr(value)` renderings of dict entries. -/
def pyReprPairs : List (PyStr × JVal) → PyStr
  | [] => []
  | [(k, v)] => chrQuote :: k ++ [chrQuote] ++ ": ".toList ++ pyRepr v
  | (k, v) :: ps =>
      chrQuote :: k ++ [chrQuote] ++ ": ".toList ++ pyRepr v ++ ", ".toList ++ pyReprPairs ps

end

/-- Python `str()` applied to a JSON value: strings pass through unquoted,
everything else renders as its `repr`. -/
def pyStr (v : JVal) : PyStr :=
  match v with
  | .str s => s
  | v => pyRepr v

/-- Lookup of a key in a parsed JSON object (Python `dict` access). -/
def jLookup : List (PyStr × JVal) → PyStr → Option JVal
  | [], _ => none
  | (k', v) :: rest, k => if k' = k then some v else jLookup rest k

/-- Python `dict.get(key, default)`: the value when the key is present
(even when that value is `null`), the default otherwise. -/
def jGet (fs : List (PyStr × JVal)) (k : PyStr) (d : JVal) : JVal :=
  (jLookup fs k).getD d

/-- Python `str.strip()`: remove whitespace from both ends. -/
def pyStrip (s : PyStr) : PyStr :=
  ((s.dropWhile Char.isWhitespace).reverse.dropWhile Char.isWhitespace).reverse

/-- Python `str.split(sep)` for a one-character separator: keeps empty
chunks, and splitting the empty string yields `[""]`. -/
def pySplit (sep : Char) : PyStr → List PyStr
  | [] => [[]]
  | c :: cs =>
      if c = sep then [] :: pySplit sep cs
      else
        match pySplit sep cs with
        | [] => [[c]]
        | g :: gs => (c :: g) :: gs

theorem pySplit_ne_nil (sep : Char) (s : PyStr) : pySplit sep s ≠ [] := by
  induction s with
  | nil => simp [pySplit]
  | cons c cs ih =>
    simp only [pySplit]
    split
    · simp
    · cases h : pySplit sep cs with
      | nil => simp
      | cons g gs => simp [h]

theorem pySplit_no_sep (sep : Char) (s : PyStr) (h : sep ∉ s) :
    pySplit sep s = [s] := by
  induction s with
  | nil => rfl
  | cons c cs ih =>
    simp only [List.mem_cons, not_or] at h
    simp only [pySplit]
    rw [if_neg (fun hc => h.1 hc.symm), ih h.2]

theorem pySplit_append (sep : Char) (a b : PyStr) (h : sep ∉ a) :
    pySplit sep (a ++ sep :: b) = a :: pySplit sep b := by
  induction a with
  | nil => simp [pySplit]
  | cons c cs ih =>
    simp only [List.mem_cons, not_or] at h
    simp only [List.cons_append, pySplit]
    rw [if_neg (fun hc => h.1 hc.symm)]
    simp only [List.append_eq]
    rw [ih h.2]

/-- Transport address for a device and channel, mirroring
`f"dd/pager/{device_id}/{subtopic}"` in `publish_to_device`. -/
def topic_for (device sub : PyStr) : PyStr :=
  "dd/pager/".toList ++ device ++ "/".toList ++ sub

/-- Inbound-topic parsing from `on_mqtt_message`: split on `/`, require
exactly 4 segments, and read the device and action segments. -/
def decode_topic (t : PyStr) : Option (PyStr × PyStr) :=
  match pySplit '/' t with
  | [_, _, d, a] => some (d, a)
  | _ => none

theorem topic_for_eq (device sub : PyStr) :
    topic_for device sub =
      "dd".toList ++ '/' :: ("pager".toList ++ '/' :: (device ++ '/' :: sub)) := by
  simp [topic_for]

/-- Splitting an encoded topic recovers the four segments. -/
theorem pySplit_topic_for (device sub : PyStr) (hd : '/' ∉ device) (hs : '/' ∉ sub) :
    pySplit '/' (topic_for device sub) = ["dd".toList, "pager".toList, device, sub] := by
  rw [topic_for_eq]
  rw [pySplit_append '/' "dd".toList _ (by decide)]
  rw [pySplit_append '/' "pager".toList _ (by decide)]
  rw [pySplit_append '/' device _ hd]
  rw [pySplit_no_sep '/' sub hs]

/-- Round trip: decoding an encoded topic yields the device and channel. -/
theorem decode_topic_for (device sub : PyStr) (hd : '/' ∉ device) (hs : '/' ∉ sub) :
    decode_topic (topic_for device sub) = some (device, sub) := by
  rw [decode_topic, pySplit_topic_for device sub hd hs]

theorem decode_topic_eq_none (t : PyStr) (h : (pySplit '/' t).length ≠ 4) :
    decode_topic t = none := by
  rw [decode_topic]
  rcases hp : pySplit '/' t with _ | ⟨a, _ | ⟨b, _ | ⟨c, _ | ⟨d, _ | e⟩⟩⟩⟩ <;>
    simp_all [hp]

/-- Error raised inside `ensure_mqtt`: a start failure from both
`start_mqtt` attempts, or the 10-second reconnect timeout. -/
inductive MqttErr where
  | startFailed : MqttErr
  | timeout : MqttErr
deriving DecidableEq

/-- Oracle for the stateful MQTT environment that `ensure_mqtt` observes:
whether the client reports connected before any start, whether each of
the two `start_mqtt` attempts raises, and what `is_connected()` returns
at each quarter-second poll step after a start. -/
structure MqttWorld where
  alreadyConnected : Bool
  startFails : Bool
  retryFails : Bool
  connectedAt : Nat → Bool

/-- Observable outcome of one `ensure_mqtt` run: its result (the poll
step at which the client was seen connected, or the raised error), how
many times `start_mqtt` was called, and the total time slept in quarter
seconds (`time.sleep(1)` counts 4, each `time.sleep(0.25)` counts 1). -/
structure EnsureOut where
  result : Except MqttErr Nat
  startCalls : Nat
  sleptQuarters : Nat

/-- The `for _ in range(40)` poll loop of `ensure_mqtt`: at step `k`
check `is_connected()`; if true return, else sleep 0.25 s and continue;
after the fuel runs out raise the reconnect-timeout error. -/
def pollConn (conn : Nat → Bool) : Nat → Nat → Except MqttErr Nat
  | 0, _ => .error .timeout
  | fuel + 1, k => if conn k then .ok k else pollConn conn fuel (k + 1)

/-- Shared tail of `ensure_mqtt` after a `start_mqtt` call that did not
raise: run the 40-step poll loop, accumulating slept time. -/
def ensureAfterStart (w : MqttWorld) (calls slept : Nat) : EnsureOut :=
  match pollConn w.connectedAt 40 0 with
  | .ok k => ⟨.ok k, calls, slept + k⟩
  | .error e => ⟨.error e, calls, slept + 40⟩

/-- Model of `ensure_mqtt`: return at once if already connected;
otherwise `start_mqtt`, retrying once after a 1-second sleep if the
first call raises, re-raising if the retry raises too; then poll the
connection state for at most 40 quarter-second steps and raise a
timeout error if still not connected. -/
def ensure_mqtt (w : MqttWorld) : EnsureOut :=
  if w.alreadyConnected then ⟨.ok 0, 0, 0⟩
  else if w.startFails then
    if w.retryFails then ⟨.error .startFailed, 2, 4⟩
    else ensureAfterStart w 2 4
  else ensureAfterStart w 1 0

theorem pollConn_all_false (conn : Nat → Bool) :
    ∀ fuel k, (∀ j, k ≤ j → j < k + fuel → conn j = false) →
      pollConn conn fuel k = .error .timeout := by
  intro fuel
  induction fuel with
  | zero => intro k _; rfl
  | succ n ih =>
    intro k h
    have hk : conn k = false := h k le_rfl (by omega)
    simp only [pollConn, hk, if_false, Bool.false_eq_true]
    exact ih (k + 1) (fun j hj1 hj2 => h j (by omega) (by omega))

theorem pollConn_first_true (conn : Nat → Bool) :
    ∀ fuel k m, k ≤ m → m < k + fuel → conn m = true →
      (∀ j, k ≤ j → j < m → conn j = false) →
      pollConn conn fuel k = .ok m := by
  intro fuel
  induction fuel with
  | zero => intro k m h1 h2; omega
  | succ n ih =>
    intro k m h1 h2 hm hprev
    by_cases hk : k = m
    · subst hk
      simp [pollConn, hm]
    · have : conn k = false := hprev k le_rfl (by omega)
      simp only [pollConn, this, Bool.false_eq_true, if_false]
      exact ih (k + 1) m (by omega) (by omega) hm
        (fun j hj1 hj2 => hprev j (by omega) hj2)

theorem pollConn_ok_lt (conn : Nat → Bool) :
    ∀ fuel k m, pollConn conn fuel k = .ok m → m < k + fuel := by
  intro fuel
  induction fuel with
  | zero => intro k m h; simp [pollConn] at h
  | succ n ih =>
    intro k m hp
    rw [pollConn] at hp
    split at hp
    · cases hp; omega
    · have := ih (k + 1) m hp
      omega

theorem ensureAfterStart_slept_le (w : MqttWorld) (calls slept : Nat) :
    (ensureAfterStart w calls slept).sleptQuarters ≤ slept + 40 := by
  rw [ensureAfterStart]
  rcases h : pollConn w.connectedAt 40 0 with e | k
  · simp only
    omega
  · have := pollConn_ok_lt w.connectedAt 40 0 k h
    simp only
    omega

theorem ensure_mqtt_slept_le (w : MqttWorld) :
    (ensure_mqtt w).sleptQuarters ≤ 44 := by
  rw [ensure_mqtt]
  split
  · simp
  · split
    · split
      · simp
      · have := ensureAfterStart_slept_le w 2 4
        omega
    · have := ensureAfterStart_slept_le w 1 0
      omega

/-- One row of the SQLite `devices` table. -/
structure DeviceRec where
  device_id : PyStr
  api_key : PyStr
  app_key : PyStr
  dd_site : PyStr
  created_at : Nat
deriving DecidableEq

/-- Process-wide configuration read from the environment: the default
device identifier and the legacy fallback Datadog credentials. -/
structure Env where
  deviceId : PyStr
  dd_api_key : PyStr
  dd_app_key : PyStr
  dd_site : PyStr

/-- Model of `db_get_device`: the row whose primary key matches, if any. -/
def db_get_device (db : List DeviceRec) (d : PyStr) : Option DeviceRec :=
  db.find? (fun r => r.device_id = d)

/-- Model of `db_upsert_device` (`INSERT ... ON CONFLICT(device_id) DO
UPDATE`): on conflict the credentials and site are overwritten but
`created_at` keeps the stored value; otherwise a fresh row is inserted
with `created_at` set to the current time. -/
def db_upsert_device (db : List DeviceRec) (d api app site : PyStr) (now : Nat) :
    List DeviceRec :=
  match db with
  | [] => [⟨d, api, app, site, now⟩]
  | r :: rest =>
      if r.device_id = d then ⟨d, api, app, site, r.created_at⟩ :: rest
      else r :: db_upsert_device rest d api app site now

/-- Number of stored rows with a given primary key. -/
def recCount (db : List DeviceRec) (d : PyStr) : Nat :=
  (db.filter (fun r => r.device_id = d)).length

theorem recCount_zero_iff (db : List DeviceRec) (d : PyStr) :
    recCount db d = 0 ↔ ∀ r ∈ db, r.device_id ≠ d := by
  simp [recCount, List.filter_eq_nil_iff]

theorem db_upsert_fresh (db : List DeviceRec) (d api app site : PyStr) (now : Nat)
    (h : ∀ r ∈ db, r.device_id ≠ d) :
    db_upsert_device db d api app site now = db ++ [⟨d, api, app, site, now⟩] := by
  induction db with
  | nil => rfl
  | cons r rest ih =>
    rw [db_upsert_device]
    rw [if_neg (h r (List.mem_cons_self r rest))]
    rw [ih (fun x hx => h x (List.mem_cons_of_mem r hx))]
    rfl

theorem db_upsert_existing_tail (db : List DeviceRec) (x : DeviceRec)
    (d api app site : PyStr) (now : Nat)
    (h : ∀ r ∈ db, r.device_id ≠ d) (hx : x.device_id = d) :
    db_upsert_device (db ++ [x]) d api app site now =
      db ++ [⟨d, api, app, site, x.created_at⟩] := by
  induction db with
  | nil => simp [db_upsert_device, hx]
  | cons r rest ih =>
    rw [List.cons_append, db_upsert_device]
    rw [if_neg (h r (List.mem_cons_self r rest))]
    rw [ih (fun y hy => h y (List.mem_cons_of_mem r hy))]
    rfl

theorem db_get_device_append_last (db : List DeviceRec) (x : DeviceRec) (d : PyStr)
    (h : ∀ r ∈ db, r.device_id ≠ d) (hx : x.device_id = d) :
    db_get_device (db ++ [x]) d = some x := by
  induction db with
  | nil => simp [db_get_device, List.find?, hx]
  | cons r rest ih =>
    have hr : r.device_id ≠ d := h r (List.mem_cons_self r rest)
    rw [db_get_device] at ih ⊢
    simp only [List.cons_append, List.find?_cons, decide_eq_false hr]
    exact ih (fun y hy => h y (List.mem_cons_of_mem r hy))

theorem recCount_append_last (db : List DeviceRec) (x : DeviceRec) (d : PyStr)
    (h : ∀ r ∈ db, r.device_id ≠ d) (hx : x.device_id = d) :
    recCount (db ++ [x]) d = 1 := by
  induction db with
  | nil => simp [recCount, List.filter, hx]
  | cons r rest ih =>
    have hr : r.device_id ≠ d := h r (List.mem_cons_self r rest)
    rw [recCount] at ih ⊢
    simp only [List.cons_append, List.filter_cons, decide_eq_false hr, if_false,
      Bool.false_eq_true]
    exact ih (fun y hy => h y (List.mem_cons_of_mem r hy))

/-- A later upsert never changes the `created_at` of an existing row. -/
theorem db_upsert_keeps_created_at (db : List DeviceRec) (d api app site : PyStr)
    (now : Nat) (r : DeviceRec) (h : db_get_device db d = some r) :
    db_get_device (db_upsert_device db d api app site now) d =
      some ⟨d, api, app, site, r.created_at⟩ := by
  induction db with
  | nil => simp [db_get_device, List.find?] at h
  | cons x rest ih =>
    rw [db_get_device, List.find?_cons] at h
    by_cases hx : x.device_id = d
    · simp only [decide_eq_true hx] at h
      cases h
      rw [db_upsert_device, if_pos hx, db_get_device, List.find?_cons]
      simp
    · simp only [decide_eq_false hx] at h
      rw [db_upsert_device, if_neg hx, db_get_device, List.find?_cons]
      simp only [decide_eq_false hx]
      exact ih h

/-- HTTP headers carrying Datadog credentials (`Content-Type` constant
omitted). -/
structure Headers where
  api_key : PyStr
  app_key : PyStr
deriving DecidableEq

/-- Model of `get_device_headers`: the stored row's credentials when the
row exists with a truthy (non-empty) `api_key`; else the env-var
fallback when `DD_API_KEY` is non-empty; else `none`. -/
def get_device_headers (db : List DeviceRec) (env : Env) (d : PyStr) :
    Option (Headers × PyStr) :=
  match db_get_device db d with
  | some dev =>
      if dev.api_key ≠ [] then some (⟨dev.api_key, dev.app_key⟩, dev.dd_site)
      else if env.dd_api_key ≠ [] then some (⟨env.dd_api_key, env.dd_app_key⟩, env.dd_site)
      else none
  | none =>
      if env.dd_api_key ≠ [] then some (⟨env.dd_api_key, env.dd_app_key⟩, env.dd_site)
      else none

/-- One attempted upstream Datadog call, as issued by `_dd_api_call`
(`POST https://api.{site}/api/v2/on-call/pages/{alert_id}/{action}`).
Only the site, path parameters and credential headers are observable. -/
structure DDCall where
  site : PyStr
  alert_id : PyStr
  action : PyStr
  headers : Headers
deriving DecidableEq

/-- Model of `_dd_api_call`: resolve headers, skip the call entirely when
no credentials are available; the `httpx.post` outcome itself is wrapped
in `try/except` in the source, so it never affects the result. -/
def dd_api_call (db : List DeviceRec) (env : Env) (device alert_id action : PyStr) :
    List DDCall :=
  match get_device_headers db env device with
  | none => []
  | some (h, site) => [⟨site, alert_id, action, h⟩]

/-- Model of `on_mqtt_message`: decode the payload (stripping surrounding
whitespace), reject topics that do not split into exactly 4 segments,
and dispatch `ack`/`resolve` to the upstream API call; the returned list
is the set of upstream calls attempted.  The function is total: no
exception escapes the handler. -/
def on_mqtt_message (db : List DeviceRec) (env : Env) (topic payloadRaw : PyStr) :
    List DDCall :=
  let alert_id := pyStrip payloadRaw
  match decode_topic topic with
  | none => []
  | some (device, action) =>
      if action = "ack".toList then dd_api_call db env device alert_id "acknowledge".toList
      else if action = "resolve".toList then dd_api_call db env device alert_id "resolve".toList
      else []

/-- Python exceptions that the handlers can observe. -/
inductive PyErr where
  | attributeError : PyErr
  | typeError : PyErr
  | jsonError : PyErr
  | mqtt : MqttErr → PyErr
deriving DecidableEq

/-- Rendering of an exception used for the `detail` response field. -/
def errText : PyErr → PyStr
  | .attributeError => "AttributeError".toList
  | .typeError => "TypeError".toList
  | .jsonError => "JSONDecodeError".toList
  | .mqtt .startFailed => "MQTT start failed".toList
  | .mqtt .timeout => "MQTT reconnect timed out after 10s".toList

/-- The compact alert message published to a device's `alert` topic
(the dict passed to `json.dumps` in `_handle_webhook` / `test_alert`). -/
structure AlertMsg where
  id : JVal
  title : JVal
  severity : JVal
  service : JVal

/-- Resolution of the alert id (line 277): first present key of `id`,
`alert_id`, `page_id` wins even when its value is null, else the first
8 characters of a fresh UUID string; the result is passed to `str`. -/
def resolve_id (fs : List (PyStr × JVal)) (uu : PyStr) : PyStr :=
  pyStr (jGet fs "id".toList
    (jGet fs "alert_id".toList
      (jGet fs "page_id".toList (.str (uu.take 8)))))

/-- Resolution of the title (line 278): `title`, `message`, `name`,
default `"Alert"`. -/
def resolve_title (fs : List (PyStr × JVal)) : JVal :=
  jGet fs "title".toList
    (jGet fs "message".toList
      (jGet fs "name".toList (.str "Alert".toList)))

/-- Resolution of the severity (line 279): `severity`, `priority`,
`urgency`, default `"P?"`. -/
def resolve_severity (fs : List (PyStr × JVal)) : JVal :=
  jGet fs "severity".toList
    (jGet fs "priority".toList
      (jGet fs "urgency".toList (.str "P?".toList)))

/-- Resolution of the service (line 280).  Python evaluates default
arguments eagerly, so `body.get("tags", {}).get("service", "unknown")`
runs first: when the `tags` value is present and is not a dict, the
attribute access raises even if `service` itself is present. -/
def resolve_service (fs : List (PyStr × JVal)) : Except PyErr JVal :=
  match jGet fs "tags".toList (.obj []) with
  | .obj tfs =>
      .ok (jGet fs "service".toList
        (jGet fs "service_name".toList
          (jGet tfs "service".toList (.str "unknown".toList))))
  | _ => .error .attributeError

/-- The `isinstance(x, dict)` conversions on lines 282-285. -/
def strIfDict (v : JVal) : JVal :=
  match v with
  | .obj fs => .str (pyStr (.obj fs))
  | v => v

/-- Python slicing `x[:n]`: defined for strings and lists, a `TypeError`
on any other value. -/
def pySlice (v : JVal) (n : Nat) : Except PyErr JVal :=
  match v with
  | .str s => .ok (.str (s.take n))
  | .arr xs => .ok (.arr (xs.take n))
  | _ => .error .typeError

/-- The pure normalization done by `_handle_webhook` (lines 277-292):
resolve fields, stringify dict titles and services, truncate the title
to 120, the stringified severity to 30 and the stringified service to
60 characters. -/
def normalize_alert (fs : List (PyStr × JVal)) (uu : PyStr) : Except PyErr AlertMsg :=
  match resolve_service fs with
  | .error e => .error e
  | .ok sv =>
      match pySlice (strIfDict (resolve_title fs)) 120 with
      | .error e => .error e
      | .ok tcut =>
          .ok ⟨.str (resolve_id fs uu), tcut,
            .str ((pyStr (resolve_severity fs)).take 30),
            .str ((pyStr (strIfDict sv)).take 60)⟩

/-- An HTTP handler result: either a JSON-shaped dict (whose `status`
field and contextual fields are kept) or an `HTMLResponse` with its
status code. -/
inductive Response where
  | json : PyStr → Option JVal → Option JVal → Option JVal → Response
  | html : Nat → Response

/-- The `status` field of a handler result, when it has one. -/
def statusOf : Response → Option PyStr
  | .json s _ _ _ => some s
  | .html _ => none

/-- The JSON error response `{"status": "error", "detail": str(e)}`. -/
def errResp (e : PyErr) : Response :=
  .json "error".toList none none (some (.str (errText e)))

/-- Model of `publish_to_device`: run `ensure_mqtt` (which may raise),
then enqueue on `f"dd/pager/{device_id}/{subtopic}"`; on success the
published topic is returned. -/
def publish_to_device (w : MqttWorld) (device sub : PyStr) : Except MqttErr PyStr :=
  match (ensure_mqtt w).result with
  | .error e => .error e
  | .ok _ => .ok (topic_for device sub)

/-- Model of `_handle_webhook`: parse the body (a parse failure or a
non-dict body makes the first attribute access raise), normalize,
publish, and convert any exception into an `"error"`-status JSON
response at the handler boundary.  The second component is the list of
`(topic, message)` pairs actually published. -/
def handle_webhook (w : MqttWorld) (device : PyStr) (body : Except PyErr JVal)
    (uu : PyStr) : Response × List (PyStr × AlertMsg) :=
  match body with
  | .error e => (errResp e, [])
  | .ok (.obj fs) =>
      match normalize_alert fs uu with
      | .error e => (errResp e, [])
      | .ok msg =>
          match publish_to_device w device "alert".toList with
          | .error e => (errResp (.mqtt e), [])
          | .ok topic =>
              (.json "published".toList (some msg.id) (some (.str device)) none,
                [(topic, msg)])
  | .ok _ => (errResp .attributeError, [])

/-- Model of `webhook_legacy` (`POST /webhook`): delegate to
`_handle_webhook` with the configured `DEVICE_ID`. -/
def webhook_legacy (w : MqttWorld) (env : Env) (body : Except PyErr JVal)
    (uu : PyStr) : Response × List (PyStr × AlertMsg) :=
  handle_webhook w env.deviceId body uu

/-- Model of `webhook_device` (`POST /webhook/{device_id}`): delegate to
`_handle_webhook` with the path-supplied device id. -/
def webhook_device (w : MqttWorld) (device : PyStr) (body : Except PyErr JVal)
    (uu : PyStr) : Response × List (PyStr × AlertMsg) :=
  handle_webhook w device body uu

/-- Device resolution in `test_alert`: the `device` query parameter
(default `DEVICE_ID`), overridden by the body's `device_id` when the
body parses as a dict; reading a non-dict body raises inside the `try`
and leaves the query-resolved device. -/
def test_device (env : Env) (qd : Option PyStr) (body : Except PyErr JVal) : JVal :=
  match body with
  | .ok (.obj fs) => jGet fs "device_id".toList (.str (qd.getD env.deviceId))
  | _ => .str (qd.getD env.deviceId)

/-- Field resolution in `test_alert`: the body's value when the body is
a dict holding the key, the fixed default otherwise; note that no
truncation is applied on this path. -/
def test_field (body : Except PyErr JVal) (k dflt : PyStr) : JVal :=
  match body with
  | .ok (.obj fs) => jGet fs k (.str dflt)
  | _ => .str dflt

/-- Model of `test_alert` (`POST /test-alert`): resolve device and
fields (defaults `"Test Alert"`, `"P3 - Test"`, `"pager-setup"`), build
the id `"test-" + uuid4().hex[:6]` (`uu` stands for the hex string),
publish as-is, and report `sent` or `error`. -/
def test_alert (w : MqttWorld) (env : Env) (queryDevice : Option PyStr)
    (body : Except PyErr JVal) (uu : PyStr) : Response × List (PyStr × AlertMsg) :=
  match publish_to_device w (pyStr (test_device env queryDevice body)) "alert".toList with
  | .error e =>
      (.json "error".toList none none
        (some (.str ("MQTT publish failed: ".toList ++ errText (.mqtt e)))), [])
  | .ok topic =>
      (.json "sent".toList (some (.str ("test-".toList ++ uu.take 6)))
          (some (test_device env queryDevice body)) none,
        [(topic,
          ⟨.str ("test-".toList ++ uu.take 6),
            test_field body "title".toList "Test Alert".toList,
            test_field body "severity".toList "P3 - Test".toList,
            test_field body "service".toList "pager-setup".toList⟩)])

/-- Model of `connect_device` (`POST /connect`): read and strip the form
fields (defaults `DEVICE_ID` and `datadoghq.com`), reject empty keys
with a 400 page, validate the keys upstream (`valid` is the outcome of
that `httpx.get`), reject non-200 validation with a 400 page and a
validation exception with a 500 page — in both cases without touching
the store — and only then upsert, attempt the best-effort webhook
creation (unobservable here) and the best-effort `setup_complete`
publish, and return the success page.  Components: response, resulting
device table, published `(topic, payload)` pairs. -/
def connect_device (w : MqttWorld) (env : Env) (db : List DeviceRec)
    (formDevice formApi formApp formSite : Option PyStr)
    (valid : Except PyErr Nat) (now : Nat) :
    Response × List DeviceRec × List (PyStr × PyStr) :=
  let device_id := formDevice.getD env.deviceId
  let api_key := pyStrip (formApi.getD [])
  let app_key := pyStrip (formApp.getD [])
  let dd_site := pyStrip (formSite.getD "datadoghq.com".toList)
  if api_key = [] ∨ app_key = [] then (.html 400, db, [])
  else
    match valid with
    | .error _ => (.html 500, db, [])
    | .ok code =>
        if code ≠ 200 then (.html 400, db, [])
        else
          (.html 200, db_upsert_device db device_id api_key app_key dd_site now,
            match publish_to_device w device_id "setup_complete".toList with
            | .ok t => [(t, "connected".toList)]
            | .error _ => [])

theorem ensureAfterStart_timeout (w : MqttWorld) (calls slept : Nat)
    (h : ∀ k, k < 40 → w.connectedAt k = false) :
    ensureAfterStart w calls slept = ⟨.error .timeout, calls, slept + 40⟩ := by
  rw [ensureAfterStart,
    pollConn_all_false w.connectedAt 40 0 (fun j _ hj => h j (by omega))]

theorem ensureAfterStart_ok (w : MqttWorld) (calls slept m : Nat) (hm : m < 40)
    (h1 : w.connectedAt m = true) (hprev : ∀ j, j < m → w.connectedAt j = false) :
    ensureAfterStart w calls slept = ⟨.ok m, calls, slept + m⟩ := by
  rw [ensureAfterStart,
    pollConn_first_true w.connectedAt 40 0 m (Nat.zero_le m) (by omega) h1
      (fun j _ hj => hprev j hj)]

/-- C1.  `ensure_mqtt`: an already-connected client returns immediately
with no start call and no sleep; otherwise `start_mqtt` runs once, and
a raising start is retried exactly once after a 1-second sleep, the
retry's failure propagating; after a non-raising start the connection
state is polled for at most 40 quarter-second steps, a never-connecting
client yielding the timeout error after the full 10-second bound; the
total sleep never exceeds 44 quarter seconds. -/
theorem claim_C1_ensure_connected (w : MqttWorld) :
    (w.alreadyConnected = true → ensure_mqtt w = ⟨.ok 0, 0, 0⟩)
    ∧ (w.alreadyConnected = false → w.startFails = false →
        (ensure_mqtt w).startCalls = 1)
    ∧ (w.alreadyConnected = false → w.startFails = true → w.retryFails = false →
        (ensure_mqtt w).startCalls = 2 ∧ 4 ≤ (ensure_mqtt w).sleptQuarters)
    ∧ (w.alreadyConnected = false → w.startFails = true → w.retryFails = true →
        ensure_mqtt w = ⟨.error .startFailed, 2, 4⟩)
    ∧ (w.alreadyConnected = false → (w.startFails = true → w.retryFails = false) →
        (∀ k, k < 40 → w.connectedAt k = false) →
        (ensure_mqtt w).result = .error .timeout ∧
          40 ≤ (ensure_mqtt w).sleptQuarters)
    ∧ (w.alreadyConnected = false → w.startFails = false → ∀ m, m < 40 →
        w.connectedAt m = true → (∀ j, j < m → w.connectedAt j = false) →
        (ensure_mqtt w).result = .ok m ∧ (ensure_mqtt w).sleptQuarters = m)
    ∧ (ensure_mqtt w).sleptQuarters ≤ 44 := by
  refine ⟨?_, ?_, ?_, ?_, ?_, ?_, ensure_mqtt_slept_le w⟩
  · intro h
    rw [ensure_mqtt, if_pos h]
  · intro h1 h2
    rw [ensure_mqtt, if_neg (by simp [h1]), if_neg (by simp [h2]), ensureAfterStart]
    rcases hp : pollConn w.connectedAt 40 0 with e | k <;> rfl
  · intro h1 h2 h3
    rw [ensure_mqtt, if_neg (by simp [h1]), if_pos h2, if_neg (by simp [h3]),
      ensureAfterStart]
    rcases hp : pollConn w.connectedAt 40 0 with e | k <;> constructor <;> simp
  · intro h1 h2 h3
    rw [ensure_mqtt, if_neg (by simp [h1]), if_pos h2, if_pos h3]
  · intro h1 h2 h3
    rw [ensure_mqtt, if_neg (by simp [h1])]
    by_cases hs : w.startFails = true
    · rw [if_pos hs, if_neg (by simp [h2 hs]),
        ensureAfterStart_timeout w 2 4 h3]
      exact ⟨rfl, Nat.le_add_left 40 4⟩
    · rw [if_neg hs, ensureAfterStart_timeout w 1 0 h3]
      exact ⟨rfl, Nat.le_add_left 40 0⟩
  · intro h1 h2 m hm hconn hprev
    rw [ensure_mqtt, if_neg (by simp [h1]), if_neg (by simp [h2]),
      ensureAfterStart_ok w 1 0 m hm hconn hprev]
    exact ⟨rfl, Nat.zero_add m⟩

/-- Witness for C1 at a world where the first start raises, the retry
succeeds and the client never connects: the result is the timeout error
and `start_mqtt` was called exactly twice. -/
theorem claim_C1_witness :
    (ensure_mqtt ⟨false, true, false, fun _ => false⟩).result =
        Except.error MqttErr.timeout ∧
      (ensure_mqtt ⟨false, true, false, fun _ => false⟩).startCalls = 2 :=
  ⟨((claim_C1_ensure_connected ⟨false, true, false, fun _ => false⟩).2.2.2.2.1
      rfl (fun _ => rfl) (fun _ _ => rfl)).1,
    ((claim_C1_ensure_connected ⟨false, true, false, fun _ => false⟩).2.2.1
      rfl rfl rfl).1⟩

/-- C5.  Topic scheme: encoding a device identifier without `/` and a
channel from {alert, ack, resolve, setup_complete} yields the address
`dd/pager/{D}/{C}`; decoding that address (split on `/`, exactly 4
segments required) recovers `(D, C)`; and any address that does not
split into exactly 4 segments decodes to nothing, so `on_mqtt_message`
attempts no upstream call for it. -/
theorem claim_C5_topic_round_trip (d c : PyStr) (hd : '/' ∉ d)
    (hc : c = "alert".toList ∨ c = "ack".toList ∨ c = "resolve".toList ∨
      c = "setup_complete".toList) :
    topic_for d c = "dd/pager/".toList ++ d ++ "/".toList ++ c
    ∧ decode_topic (topic_for d c) = some (d, c)
    ∧ ∀ t : PyStr, (pySplit '/' t).length ≠ 4 →
        decode_topic t = none ∧
          ∀ (db : List DeviceRec) (env : Env) (payload : PyStr),
            on_mqtt_message db env t payload = [] := by
  have hcs : '/' ∉ c := by
    rcases hc with h | h | h | h <;> subst h <;> decide
  refine ⟨rfl, decode_topic_for d c hd hcs, fun t ht => ⟨decode_topic_eq_none t ht, ?_⟩⟩
  intro db env payload
  rw [on_mqtt_message]
  simp only [decode_topic_eq_none t ht]

/-- Witness for C5 at device `pager-42` and channel `ack`. -/
theorem claim_C5_witness :
    decode_topic (topic_for "pager-42".toList "ack".toList) =
      some ("pager-42".toList, "ack".toList) :=
  (claim_C5_topic_round_trip "pager-42".toList "ack".toList (by decide)
    (Or.inr (Or.inl rfl))).2.1

/-- C4.  Credential store upsert: starting from a table with no row for
`device_id`, upserting twice leaves exactly one row for it, carrying the
second upsert's credentials and site and the first insertion's
`created_at`; moreover any upsert over an existing row preserves that
row's `created_at`. -/
theorem claim_C4_upsert_idempotent :
    (∀ (db : List DeviceRec) (d a1 b1 s1 : PyStr) (t1 : Nat) (a2 b2 s2 : PyStr)
        (t2 : Nat), recCount db d = 0 →
      recCount (db_upsert_device (db_upsert_device db d a1 b1 s1 t1) d a2 b2 s2 t2) d = 1
      ∧ db_get_device (db_upsert_device (db_upsert_device db d a1 b1 s1 t1) d a2 b2 s2 t2) d
          = some ⟨d, a2, b2, s2, t1⟩)
    ∧ ∀ (db : List DeviceRec) (d : PyStr) (r : DeviceRec) (a b s : PyStr) (t : Nat),
        db_get_device db d = some r →
        (db_get_device (db_upsert_device db d a b s t) d).map DeviceRec.created_at
          = some r.created_at := by
  constructor
  · intro db d a1 b1 s1 t1 a2 b2 s2 t2 h
    have h' : ∀ r ∈ db, r.device_id ≠ d := (recCount_zero_iff db d).mp h
    rw [db_upsert_fresh db d a1 b1 s1 t1 h']
    rw [db_upsert_existing_tail db ⟨d, a1, b1, s1, t1⟩ d a2 b2 s2 t2 h' rfl]
    exact ⟨recCount_append_last db _ d h' rfl, db_get_device_append_last db _ d h' rfl⟩
  · intro db d r a b s t h
    rw [db_upsert_keeps_created_at db d a b s t r h]
    rfl

/-- Witness for C4: two upserts of `p1` into an empty table leave one
row with the second credentials and the first timestamp. -/
theorem claim_C4_witness :
    recCount (db_upsert_device
        (db_upsert_device [] "p1".toList "k1".toList "a1".toList "s1".toList 5)
        "p1".toList "k2".toList "a2".toList "s2".toList 9) "p1".toList = 1
    ∧ db_get_device (db_upsert_device
        (db_upsert_device [] "p1".toList "k1".toList "a1".toList "s1".toList 5)
        "p1".toList "k2".toList "a2".toList "s2".toList 9) "p1".toList
      = some ⟨"p1".toList, "k2".toList, "a2".toList, "s2".toList, 5⟩ :=
  claim_C4_upsert_idempotent.1 [] "p1".toList "k1".toList "a1".toList "s1".toList 5
    "k2".toList "a2".toList "s2".toList 9 rfl

theorem dd_api_call_stored (db : List DeviceRec) (env : Env)
    (d al act : PyStr) (r : DeviceRec)
    (h : db_get_device db d = some r) (hne : r.api_key ≠ []) :
    dd_api_call db env d al act = [⟨r.dd_site, al, act, ⟨r.api_key, r.app_key⟩⟩] := by
  rw [dd_api_call, get_device_headers, h]
  simp [hne]

theorem dd_api_call_fallback (db : List DeviceRec) (env : Env) (d al act : PyStr)
    (h : db_get_device db d = none ∨ ∃ r, db_get_device db d = some r ∧ r.api_key = [])
    (henv : env.dd_api_key ≠ []) :
    dd_api_call db env d al act =
      [⟨env.dd_site, al, act, ⟨env.dd_api_key, env.dd_app_key⟩⟩] := by
  rcases h with h | ⟨r, h, hr⟩
  · rw [dd_api_call, get_device_headers, h]
    simp [henv]
  · rw [dd_api_call, get_device_headers, h]
    simp [hr, henv]

theorem dd_api_call_skipped (db : List DeviceRec) (env : Env) (d al act : PyStr)
    (h : db_get_device db d = none ∨ ∃ r, db_get_device db d = some r ∧ r.api_key = [])
    (henv : env.dd_api_key = []) :
    dd_api_call db env d al act = [] := by
  rcases h with h | ⟨r, h, hr⟩
  · rw [dd_api_call, get_device_headers, h]
    simp [henv]
  · rw [dd_api_call, get_device_headers, h]
    simp [hr, henv]

theorem on_mqtt_message_eq_dispatch (db : List DeviceRec) (env : Env)
    (d payload ch act : PyStr) (hd : '/' ∉ d)
    (hch : (ch, act) = ("ack".toList, "acknowledge".toList) ∨
      (ch, act) = ("resolve".toList, "resolve".toList)) :
    on_mqtt_message db env (topic_for d ch) payload =
      dd_api_call db env d (pyStrip payload) act := by
  rcases hch with h | h <;> obtain ⟨rfl, rfl⟩ := Prod.mk.injEq .. ▸ h
  · simp only [on_mqtt_message, decode_topic_for d "ack".toList hd (by decide)]
    simp
  · simp only [on_mqtt_message, decode_topic_for d "resolve".toList hd (by decide)]
    rw [if_neg (by decide)]
    simp

/-- C6.  Inbound ack/resolve credential resolution: a stored row with a
non-empty `api_key` supplies exactly its credentials and site; with no
such row the env fallback supplies exactly its credentials when
`DD_API_KEY` is non-empty; and when neither is available the handler
attempts zero upstream calls (the handler is a total function, so no
exception escapes it). -/
theorem claim_C6_credential_resolution (db : List DeviceRec) (env : Env)
    (d payload ch act : PyStr) (hd : '/' ∉ d)
    (hch : (ch, act) = ("ack".toList, "acknowledge".toList) ∨
      (ch, act) = ("resolve".toList, "resolve".toList)) :
    (∀ r, db_get_device db d = some r → r.api_key ≠ [] →
      on_mqtt_message db env (topic_for d ch) payload =
        [⟨r.dd_site, pyStrip payload, act, ⟨r.api_key, r.app_key⟩⟩])
    ∧ ((db_get_device db d = none ∨
          ∃ r, db_get_device db d = some r ∧ r.api_key = []) →
        env.dd_api_key ≠ [] →
        on_mqtt_message db env (topic_for d ch) payload =
          [⟨env.dd_site, pyStrip payload, act, ⟨env.dd_api_key, env.dd_app_key⟩⟩])
    ∧ ((db_get_device db d = none ∨
          ∃ r, db_get_device db d = some r ∧ r.api_key = []) →
        env.dd_api_key = [] →
        on_mqtt_message db env (topic_for d ch) payload = []) := by
  rw [on_mqtt_message_eq_dispatch db env d payload ch act hd hch]
  exact ⟨fun r h hne => dd_api_call_stored db env d _ act r h hne,
    fun h henv => dd_api_call_fallback db env d _ act h henv,
    fun h henv => dd_api_call_skipped db env d _ act h henv⟩

/-- Witness for C6: a stored row for `p1` with non-empty keys resolves
an inbound ack to exactly one upstream acknowledge call with that row's
credentials. -/
theorem claim_C6_witness :
    on_mqtt_message [⟨"p1".toList, "k".toList, "a".toList, "datadoghq.com".toList, 0⟩]
        ⟨"ddpager-poc-001".toList, [], [], "datadoghq.com".toList⟩
        (topic_for "p1".toList "ack".toList) "x1".toList =
      [⟨"datadoghq.com".toList, pyStrip "x1".toList, "acknowledge".toList,
        ⟨"k".toList, "a".toList⟩⟩] :=
  (claim_C6_credential_resolution
      [⟨"p1".toList, "k".toList, "a".toList, "datadoghq.com".toList, 0⟩]
      ⟨"ddpager-poc-001".toList, [], [], "datadoghq.com".toList⟩
      "p1".toList "x1".toList "ack".toList "acknowledge".toList (by decide)
      (Or.inl rfl)).1
    ⟨"p1".toList, "k".toList, "a".toList, "datadoghq.com".toList, 0⟩ rfl (by decide)

theorem claim_C7_aux_unchanged_error (w : MqttWorld) (env : Env)
    (db : List DeviceRec) (fd fa fp fsite : Option PyStr) (e : PyErr) (now : Nat) :
    (connect_device w env db fd fa fp fsite (.error e) now).2.1 = db := by
  by_cases hk : pyStrip (fa.getD []) = [] ∨ pyStrip (fp.getD []) = []
  · rw [connect_device, if_pos hk]
  · rw [connect_device, if_neg hk]

theorem claim_C7_aux_unchanged_bad (w : MqttWorld) (env : Env)
    (db : List DeviceRec) (fd fa fp fsite : Option PyStr) (code : Nat) (now : Nat)
    (hc : code ≠ 200) :
    (connect_device w env db fd fa fp fsite (.ok code) now).2.1 = db := by
  by_cases hk : pyStrip (fa.getD []) = [] ∨ pyStrip (fp.getD []) = []
  · rw [connect_device, if_pos hk]
  · rw [connect_device, if_neg hk]
    rw [if_pos hc]

/-- C7.  Device registration validates before persisting: a non-200
validation status yields the 400 rejection page with the store
untouched, a validation exception yields a rejection page (500, or 400
when the stripped keys were empty and validation never ran) with the
store untouched, the store can only change when validation returned
200, and on a 200 validation with non-empty stripped keys the handler
performs exactly the upsert and returns the success page. -/
theorem claim_C7_validate_before_persist (w : MqttWorld) (env : Env)
    (db : List DeviceRec) (fd fa fp fsite : Option PyStr)
    (valid : Except PyErr Nat) (now : Nat) :
    (∀ code, valid = .ok code → code ≠ 200 →
      (connect_device w env db fd fa fp fsite valid now).1 = .html 400
      ∧ (connect_device w env db fd fa fp fsite valid now).2.1 = db)
    ∧ (∀ e, valid = .error e →
      ((connect_device w env db fd fa fp fsite valid now).1 = .html 500
        ∨ (connect_device w env db fd fa fp fsite valid now).1 = .html 400)
      ∧ (connect_device w env db fd fa fp fsite valid now).2.1 = db)
    ∧ ((connect_device w env db fd fa fp fsite valid now).2.1 ≠ db →
        valid = .ok 200)
    ∧ (valid = .ok 200 → pyStrip (fa.getD []) ≠ [] → pyStrip (fp.getD []) ≠ [] →
      (connect_device w env db fd fa fp fsite valid now).1 = .html 200
      ∧ (connect_device w env db fd fa fp fsite valid now).2.1 =
          db_upsert_device db (fd.getD env.deviceId) (pyStrip (fa.getD []))
            (pyStrip (fp.getD [])) (pyStrip (fsite.getD "datadoghq.com".toList)) now) := by
  refine ⟨?_, ?_, ?_, ?_⟩
  · intro code hv hc
    subst hv
    by_cases hk : pyStrip (fa.getD []) = [] ∨ pyStrip (fp.getD []) = []
    · rw [connect_device, if_pos hk]
      exact ⟨rfl, rfl⟩
    · rw [connect_device, if_neg hk]
      rw [if_pos hc]
      exact ⟨rfl, rfl⟩
  · intro e hv
    subst hv
    by_cases hk : pyStrip (fa.getD []) = [] ∨ pyStrip (fp.getD []) = []
    · rw [connect_device, if_pos hk]
      exact ⟨Or.inr rfl, rfl⟩
    · rw [connect_device, if_neg hk]
      exact ⟨Or.inl rfl, rfl⟩
  · intro hne
    rcases hv : valid with e | code
    · exact absurd ((claim_C7_aux_unchanged_error w env db fd fa fp fsite e now)) (hv ▸ hne)
    · by_cases hc : code = 200
      · rw [hc]
      · exact absurd (claim_C7_aux_unchanged_bad w env db fd fa fp fsite code now hc)
          (hv ▸ hne)
  · intro hv ha hp
    subst hv
    rw [connect_device, if_neg (by simp [ha, hp])]
    rw [if_neg (by simp)]
    exact ⟨rfl, rfl⟩

/-- Witness for C7 at a 403 validation outcome: the handler rejects with
the 400 page and an initially-empty store stays empty. -/
theorem claim_C7_witness :
    (connect_device ⟨true, false, false, fun _ => true⟩
        ⟨"ddpager-poc-001".toList, [], [], "datadoghq.com".toList⟩ []
        (some "p1".toList) (some "k".toList) (some "a".toList) none
        (.ok 403) 7).1 = .html 400
    ∧ (connect_device ⟨true, false, false, fun _ => true⟩
        ⟨"ddpager-poc-001".toList, [], [], "datadoghq.com".toList⟩ []
        (some "p1".toList) (some "k".toList) (some "a".toList) none
        (.ok 403) 7).2.1 = [] :=
  (claim_C7_validate_before_persist ⟨true, false, false, fun _ => true⟩
      ⟨"ddpager-poc-001".toList, [], [], "datadoghq.com".toList⟩ []
      (some "p1".toList) (some "k".toList) (some "a".toList) none
      (.ok 403) 7).1 403 rfl (by decide)

/-- C9.  The legacy webhook handler is exactly the per-device webhook
handler applied at the configured default device identifier: both are
the same function of the request and the device id. -/
theorem claim_C9_legacy_is_default_device (w : MqttWorld) (env : Env)
    (body : Except PyErr JVal) (uu : PyStr) :
    webhook_legacy w env body uu = webhook_device w env.deviceId body uu := rfl

/-- C2.  Normalizer precedence, as the code implements it: for each
field the first PRESENT candidate key wins — even when its value is
JSON null, since `dict.get(key, default)` returns the stored value
whenever the key is present — with order id → alert_id → page_id →
generated 8-character id, title → message → name → "Alert", severity →
priority → urgency → "P?", and (provided the `tags` value is a dict or
absent) service → service_name → tags.service → "unknown".  A body with
both `id` and `alert_id` resolves from `id`; a body whose `id` is null
resolves to the stringified null `"None"`, not to `alert_id`. -/
theorem claim_C2_normalization_precedence (fs : List (PyStr × JVal)) (uu : PyStr) :
    (∀ v, jLookup fs "id".toList = some v → resolve_id fs uu = pyStr v)
    ∧ (jLookup fs "id".toList = none → ∀ v, jLookup fs "alert_id".toList = some v →
        resolve_id fs uu = pyStr v)
    ∧ (jLookup fs "id".toList = none → jLookup fs "alert_id".toList = none →
        ∀ v, jLookup fs "page_id".toList = some v → resolve_id fs uu = pyStr v)
    ∧ (jLookup fs "id".toList = none → jLookup fs "alert_id".toList = none →
        jLookup fs "page_id".toList = none →
        resolve_id fs uu = uu.take 8 ∧ (8 ≤ uu.length → (resolve_id fs uu).length = 8))
    ∧ (jLookup fs "id".toList = some .null → resolve_id fs uu = "None".toList)
    ∧ (∀ v, jLookup fs "title".toList = some v → resolve_title fs = v)
    ∧ (jLookup fs "title".toList = none → ∀ v, jLookup fs "message".toList = some v →
        resolve_title fs = v)
    ∧ (jLookup fs "title".toList = none → jLookup fs "message".toList = none →
        ∀ v, jLookup fs "name".toList = some v → resolve_title fs = v)
    ∧ (jLookup fs "title".toList = none → jLookup fs "message".toList = none →
        jLookup fs "name".toList = none → resolve_title fs = .str "Alert".toList)
    ∧ (∀ v, jLookup fs "severity".toList = some v → resolve_severity fs = v)
    ∧ (jLookup fs "severity".toList = none →
        ∀ v, jLookup fs "priority".toList = some v → resolve_severity fs = v)
    ∧ (jLookup fs "severity".toList = none → jLookup fs "priority".toList = none →
        ∀ v, jLookup fs "urgency".toList = some v → resolve_severity fs = v)
    ∧ (jLookup fs "severity".toList = none → jLookup fs "priority".toList = none →
        jLookup fs "urgency".toList = none → resolve_severity fs = .str "P?".toList)
    ∧ (∀ tfs, jGet fs "tags".toList (.obj []) = .obj tfs →
        (∀ v, jLookup fs "service".toList = some v → resolve_service fs = .ok v)
        ∧ (jLookup fs "service".toList = none →
            ∀ v, jLookup fs "service_name".toList = some v → resolve_service fs = .ok v)
        ∧ (jLookup fs "service".toList = none →
            jLookup fs "service_name".toList = none →
            ∀ v, jLookup tfs "service".toList = some v → resolve_service fs = .ok v)
        ∧ (jLookup fs "service".toList = none →
            jLookup fs "service_name".toList = none →
            jLookup tfs "service".toList = none →
            resolve_service fs = .ok (.str "unknown".toList))) := by
  refine ⟨?_, ?_, ?_, ?_, ?_, ?_, ?_, ?_, ?_, ?_, ?_, ?_, ?_, ?_⟩
  · intro v h
    simp only [resolve_id, jGet, h, Option.getD_some]
  · intro h1 v h
    simp only [resolve_id, jGet, h1, Option.getD_none, h, Option.getD_some]
  · intro h1 h2 v h
    simp only [resolve_id, jGet, h1, h2, Option.getD_none, h, Option.getD_some]
  · intro h1 h2 h3
    constructor
    · simp only [resolve_id, jGet, h1, h2, h3, Option.getD_none, pyStr]
    · intro hlen
      simp only [resolve_id, jGet, h1, h2, h3, Option.getD_none, pyStr,
        List.length_take]
      omega
  · intro h
    simp only [resolve_id, jGet, h, Option.getD_some, pyStr, pyRepr]
  · intro v h
    simp only [resolve_title, jGet, h, Option.getD_some]
  · intro h1 v h
    simp only [resolve_title, jGet, h1, Option.getD_none, h, Option.getD_some]
  · intro h1 h2 v h
    simp only [resolve_title, jGet, h1, h2, Option.getD_none, h, Option.getD_some]
  · intro h1 h2 h3
    simp only [resolve_title, jGet, h1, h2, h3, Option.getD_none]
  · intro v h
    simp only [resolve_severity, jGet, h, Option.getD_some]
  · intro h1 v h
    simp only [resolve_severity, jGet, h1, Option.getD_none, h, Option.getD_some]
  · intro h1 h2 v h
    simp only [resolve_severity, jGet, h1, h2, Option.getD_none, h, Option.getD_some]
  · intro h1 h2 h3
    simp only [resolve_severity, jGet, h1, h2, h3, Option.getD_none]
  · intro tfs htf
    refine ⟨?_, ?_, ?_, ?_⟩
    · intro v h
      rw [resolve_service, htf]
      simp only [jGet, h, Option.getD_some]
    · intro h1 v h
      rw [resolve_service, htf]
      simp only [jGet, h1, Option.getD_none, h, Option.getD_some]
    · intro h1 h2 v h
      rw [resolve_service, htf]
      simp only [jGet, h1, h2, Option.getD_none, h, Option.getD_some]
    · intro h1 h2 h3
      rw [resolve_service, htf]
      simp only [jGet, h1, h2, h3, Option.getD_none]

/-- Counterexample to C2 as stated: in the body
`{"id": null, "alert_id": "x1"}` the id does NOT resolve from
`alert_id`; `dict.get` returns the present null and `str` turns it into
`"None"`. -/
theorem claim_C2_counterexample :
    resolve_id [("id".toList, JVal.null), ("alert_id".toList, JVal.str "x1".toList)]
        "0123456789abcdef".toList = "None".toList
    ∧ "None".toList ≠ "x1".toList :=
  ⟨rfl, by decide⟩

/-- Witness for C2: a body carrying both `id` and `alert_id` resolves
the id from `id`. -/
theorem claim_C2_witness :
    resolve_id [("id".toList, JVal.str "x9".toList),
        ("alert_id".toList, JVal.str "x1".toList)] "0123456789abcdef".toList =
      pyStr (JVal.str "x9".toList) :=
  (claim_C2_normalization_precedence
      [("id".toList, JVal.str "x9".toList), ("alert_id".toList, JVal.str "x1".toList)]
      "0123456789abcdef".toList).1 (JVal.str "x9".toList) rfl

theorem normalize_alert_ok (fs : List (PyStr × JVal)) (uu : PyStr) (msg : AlertMsg)
    (h : normalize_alert fs uu = .ok msg) :
    ∃ sv tcut, resolve_service fs = .ok sv
      ∧ pySlice (strIfDict (resolve_title fs)) 120 = .ok tcut
      ∧ msg = ⟨.str (resolve_id fs uu), tcut,
          .str ((pyStr (resolve_severity fs)).take 30),
          .str ((pyStr (strIfDict sv)).take 60)⟩ := by
  revert h
  rw [normalize_alert]
  rcases hsv : resolve_service fs with e | sv
  · intro h
    cases h
  · rcases hsl : pySlice (strIfDict (resolve_title fs)) 120 with e | tcut
    · intro h
      cases h
    · intro h
      cases h
      exact ⟨sv, tcut, rfl, rfl, rfl⟩

theorem pySlice_str_le (v : JVal) (n : Nat) (tcut : JVal)
    (h : pySlice v n = .ok tcut) :
    ∀ s, tcut = JVal.str s → s.length ≤ n := by
  rcases v with _ | b | m | s0 | xs | o <;> rw [pySlice] at h <;> cases h <;>
    intro s hs <;> cases hs
  · rw [List.length_take]
    omega

theorem take_cons_ne_nil (a : Char) (l : PyStr) (n : Nat) :
    (a :: l).take (n + 1) ≠ [] := by
  simp [List.take_succ_cons]

/-- C3.  Truncation, as the code implements it: every message published
by the WEBHOOK path has a stringified severity of at most 30 and a
stringified service of at most 60 characters, a title that is at most
120 characters whenever it is a string (a 200-character title is cut to
exactly 120, via the stated take-120 equation), and a dict-valued
resolved service becomes a non-empty string before the cut; the
TEST-ALERT path, by contrast, publishes its fields untruncated, passing
any body-supplied title through unchanged. -/
theorem claim_C3_truncation (w : MqttWorld) (device : PyStr)
    (body : Except PyErr JVal) (uu : PyStr) :
    (∀ p ∈ (handle_webhook w device body uu).2,
      (∀ s, p.2.title = JVal.str s → s.length ≤ 120)
      ∧ (∃ s, p.2.severity = JVal.str s ∧ s.length ≤ 30)
      ∧ (∃ s, p.2.service = JVal.str s ∧ s.length ≤ 60)
      ∧ ∀ fs, body = .ok (.obj fs) →
          (∀ s0, resolve_title fs = .str s0 → p.2.title = .str (s0.take 120))
          ∧ ∀ o, resolve_service fs = .ok (.obj o) →
              ∃ s, p.2.service = JVal.str s ∧ s ≠ [] ∧ s.length ≤ 60)
    ∧ (∀ (env : Env) (qd : Option PyStr), ∀ p ∈ (test_alert w env qd body uu).2,
        p.2.title = test_field body "title".toList "Test Alert".toList
        ∧ ∀ fs v, body = .ok (.obj fs) → jLookup fs "title".toList = some v →
            p.2.title = v) := by
  constructor
  · intro p hp
    rcases body with e | bv
    · simp [handle_webhook] at hp
    · rcases bv with _ | b | m | s | xs | fs0
      · simp [handle_webhook] at hp
      · simp [handle_webhook] at hp
      · simp [handle_webhook] at hp
      · simp [handle_webhook] at hp
      · simp [handle_webhook] at hp
      · rcases hn : normalize_alert fs0 uu with e | msg
        · simp [handle_webhook, hn] at hp
        · rcases hpub : publish_to_device w device "alert".toList with e | topic
          · simp only [handle_webhook, hn, hpub, List.not_mem_nil] at hp
          · simp only [handle_webhook, hn, hpub, List.mem_singleton] at hp
            subst hp
            obtain ⟨sv, tcut, hsv, hsl, hmsg⟩ := normalize_alert_ok fs0 uu msg hn
            subst hmsg
            refine ⟨pySlice_str_le _ 120 tcut hsl, ⟨_, rfl, ?_⟩, ⟨_, rfl, ?_⟩, ?_⟩
            · rw [List.length_take]
              omega
            · rw [List.length_take]
              omega
            · intro fs hfs
              injection hfs with hfs1
              injection hfs1 with hfs2
              subst hfs2
              constructor
              · intro s0 ht
                rw [ht] at hsl
                rw [show strIfDict (JVal.str s0) = JVal.str s0 from rfl] at hsl
                rw [pySlice] at hsl
                cases hsl
                rfl
              · intro o ho
                rw [hsv] at ho
                injection ho with ho1
                subst ho1
                refine ⟨_, rfl, ?_, ?_⟩
                · rw [show pyStr (strIfDict (JVal.obj o)) =
                    chrLB :: (pyReprPairs o ++ [chrRB]) from rfl]
                  exact take_cons_ne_nil chrLB _ 59
                · rw [List.length_take]
                  omega
  · intro env qd p hp
    rcases hpub : publish_to_device w (pyStr (test_device env qd body))
        "alert".toList with e | topic
    · simp only [test_alert, hpub, List.not_mem_nil] at hp
    · simp only [test_alert, hpub, List.mem_singleton] at hp
      subst hp
      refine ⟨rfl, ?_⟩
      intro fs v hb ht
      subst hb
      simp only [test_field, jGet, ht, Option.getD_some]

set_option maxRecDepth 8192 in
/-- Counterexample to C3 as stated: a test-alert body carrying a
200-character title is published with all 200 characters — the
test-alert path does not truncate. -/
theorem claim_C3_counterexample :
    ((test_alert ⟨true, false, false, fun _ => true⟩
        ⟨"ddpager-poc-001".toList, [], [], "datadoghq.com".toList⟩ none
        (.ok (.obj [("title".toList, JVal.str (List.replicate 200 'a'))]))
        "abcdef0123".toList).2.map (fun p => p.2.title))
      = [JVal.str (List.replicate 200 'a')]
    ∧ 120 < (List.replicate 200 'a').length := by
  constructor
  · rfl
  · simp

/-- Witness for C3 on the webhook path: the empty body publishes the
default message, whose severity is a string of at most 30 characters. -/
theorem claim_C3_witness :
    ∃ s, (AlertMsg.mk (JVal.str ("0123456789".toList.take 8))
        (JVal.str "Alert".toList) (JVal.str "P?".toList)
        (JVal.str "unknown".toList)).severity = JVal.str s ∧ s.length ≤ 30 :=
  ((claim_C3_truncation ⟨true, false, false, fun _ => true⟩ "p1".toList
      (.ok (.obj [])) "0123456789".toList).1
    (topic_for "p1".toList "alert".toList,
      ⟨JVal.str ("0123456789".toList.take 8), JVal.str "Alert".toList,
        JVal.str "P?".toList, JVal.str "unknown".toList⟩)
    (by
      rw [show (handle_webhook ⟨true, false, false, fun _ => true⟩ "p1".toList
          (.ok (.obj [])) "0123456789".toList).2 =
        [(topic_for "p1".toList "alert".toList,
          ⟨JVal.str ("0123456789".toList.take 8), JVal.str "Alert".toList,
            JVal.str "P?".toList, JVal.str "unknown".toList⟩)] from rfl]
      exact List.mem_singleton_self _)).2.1

theorem handle_webhook_status (w : MqttWorld) (device : PyStr)
    (body : Except PyErr JVal) (uu : PyStr) :
    statusOf (handle_webhook w device body uu).1 = some "published".toList
    ∨ statusOf (handle_webhook w device body uu).1 = some "error".toList := by
  rcases body with e | bv
  · right
    rfl
  · rcases bv with _ | b | m | s | xs | fs0
    · right; rfl
    · right; rfl
    · right; rfl
    · right; rfl
    · right; rfl
    · rcases hn : normalize_alert fs0 uu with e | msg
      · right
        simp only [handle_webhook, hn, statusOf, errResp]
      · rcases hpub : publish_to_device w device "alert".toList with e | t
        · right
          simp only [handle_webhook, hn, hpub, statusOf, errResp]
        · left
          simp only [handle_webhook, hn, hpub, statusOf]

/-- C8.  Handler results, as the code implements them: the webhook
handlers (shared and legacy) always answer with a JSON result whose
status is `published` or `error`, the test-alert handler with `sent` or
`error`, and any exception from body parsing or normalization becomes
the `error`-status result `{"status": "error", "detail": str(e)}` with
nothing published; the registration handler, however, answers with an
HTML page and carries no `status` field at all. -/
theorem claim_C8_handler_results (w : MqttWorld) (env : Env) (device : PyStr)
    (body : Except PyErr JVal) (uu : PyStr) (qd : Option PyStr)
    (db : List DeviceRec) (fd fa fp fsite : Option PyStr)
    (valid : Except PyErr Nat) (now : Nat) :
    (statusOf (handle_webhook w device body uu).1 = some "published".toList
      ∨ statusOf (handle_webhook w device body uu).1 = some "error".toList)
    ∧ (statusOf (webhook_legacy w env body uu).1 = some "published".toList
      ∨ statusOf (webhook_legacy w env body uu).1 = some "error".toList)
    ∧ (statusOf (test_alert w env qd body uu).1 = some "sent".toList
      ∨ statusOf (test_alert w env qd body uu).1 = some "error".toList)
    ∧ statusOf (connect_device w env db fd fa fp fsite valid now).1 = none
    ∧ (∀ e, body = .error e →
        handle_webhook w device body uu = (errResp e, []))
    ∧ (∀ fs e, body = .ok (.obj fs) → normalize_alert fs uu = .error e →
        handle_webhook w device body uu = (errResp e, [])) := by
  refine ⟨handle_webhook_status w device body uu,
    handle_webhook_status w env.deviceId body uu, ?_, ?_, ?_, ?_⟩
  · rcases hpub : publish_to_device w (pyStr (test_device env qd body))
        "alert".toList with e | t
    · right
      simp only [test_alert, hpub, statusOf]
    · left
      simp only [test_alert, hpub, statusOf]
  · rcases valid with e | code
    · by_cases hk : pyStrip (fa.getD []) = [] ∨ pyStrip (fp.getD []) = []
      · rw [connect_device, if_pos hk]
        rfl
      · rw [connect_device, if_neg hk]
        rfl
    · by_cases hk : pyStrip (fa.getD []) = [] ∨ pyStrip (fp.getD []) = []
      · rw [connect_device, if_pos hk]
        rfl
      · by_cases hc : code = 200
        · subst hc
          rw [connect_device, if_neg hk]
          rfl
        · rw [connect_device, if_neg hk]
          rw [if_pos hc]
          rfl
  · intro e hb
    subst hb
    rfl
  · intro fs e hb hn
    subst hb
    simp only [handle_webhook, hn]

/-- Counterexample to C8 as stated: a successful registration request
is answered with an HTML page, not a JSON-shaped result carrying any
`status` field. -/
theorem claim_C8_counterexample :
    ¬ ∃ s, statusOf (connect_device ⟨true, false, false, fun _ => true⟩
        ⟨"ddpager-poc-001".toList, [], [], "datadoghq.com".toList⟩ []
        (some "p1".toList) (some "k".toList) (some "a".toList) none
        (.ok 200) 0).1 = some s := by
  intro h
  obtain ⟨s, hs⟩ := h
  exact Option.noConfusion hs

/-- Witness for C8: a body whose JSON parsing raises is answered with
the error-status result and nothing is published. -/
theorem claim_C8_witness :
    handle_webhook ⟨true, false, false, fun _ => true⟩ "p1".toList
        (.error .jsonError) "u".toList = (errResp .jsonError, []) :=
  (claim_C8_handler_results ⟨true, false, false, fun _ => true⟩
      ⟨"ddpager-poc-001".toList, [], [], "datadoghq.com".toList⟩ "p1".toList
      (.error .jsonError) "u".toList none [] none none none none
      (.ok 200) 0).2.2.2.2.1 .jsonError rfl

/-- C10.  A body whose `tags` value is present but not a dict makes the
eagerly evaluated nested lookup raise `AttributeError`; the handler
boundary converts it into the `error`-status result and nothing is
published — the `"unknown"` service default is never reached. -/
theorem claim_C10_nondict_tags (w : MqttWorld) (device uu : PyStr)
    (fs : List (PyStr × JVal)) (tv : JVal)
    (ht : jLookup fs "tags".toList = some tv)
    (hno : ∀ o, tv ≠ JVal.obj o)
    (hs1 : jLookup fs "service".toList = none)
    (hs2 : jLookup fs "service_name".toList = none) :
    handle_webhook w device (.ok (.obj fs)) uu = (errResp .attributeError, [])
    ∧ statusOf (handle_webhook w device (.ok (.obj fs)) uu).1 =
        some "error".toList := by
  have htv : jGet fs "tags".toList (.obj []) = tv := by
    simp only [jGet, ht, Option.getD_some]
  have hrs : resolve_service fs = .error .attributeError := by
    rw [resolve_service, htv]
    rcases tv with _ | b | m | s | xs | o
    · rfl
    · rfl
    · rfl
    · rfl
    · rfl
    · exact absurd rfl (hno o)
  have hna : normalize_alert fs uu = .error .attributeError := by
    rw [normalize_alert, hrs]
  constructor
  · simp only [handle_webhook, hna]
  · simp only [handle_webhook, hna, statusOf, errResp]

/-- Witness for C10: `{"tags": ["env:prod"]}` yields the error result
with no published message. -/
theorem claim_C10_witness :
    handle_webhook ⟨true, false, false, fun _ => true⟩ "p1".toList
        (.ok (.obj [("tags".toList, JVal.arr [JVal.str "env:prod".toList])]))
        "u".toList = (errResp .attributeError, []) :=
  (claim_C10_nondict_tags ⟨true, false, false, fun _ => true⟩ "p1".toList "u".toList
      [("tags".toList, JVal.arr [JVal.str "env:prod".toList])]
      (JVal.arr [JVal.str "env:prod".toList]) rfl
      (fun o h => JVal.noConfusion h) rfl rfl).1
